import Mathlib

/-!
Verification of the Job Orchestration subsystem of KING-V3.

This file is a shallow embedding, in Lean 4, of the credit ledger
(backend/services/credit_service.py), the job orchestrator
(backend/services/job_orchestration_service.py, together with the
continue_job route of backend/server.py), and the planner, developer and
verifier agents (backend/agents).  Python dictionaries become structures,
the Mongo-style collections become explicit state records threaded through
the functions, float credit arithmetic becomes exact rationals with decimal
rounding, and the asynchronous progress generator becomes a function from
an initial state to the final state paired with the list of emitted events.
Calls into the generation provider, the JSON parser applied to free model
text, and the regex file extractors are input from outside; they are
passed in as explicit oracle parameters so each theorem quantifies over
their possible answers.  Timestamp fields are elided throughout.
-/

namespace KingV3

/-! ## Credit service (credit_service.py)

A user row of the users collection.  The field uses_own_key models the
user_ai_providers lookup performed by CreditService.user_uses_own_key
(an active default provider row with an api_key). -/

structure UserRec where
  id : String
  credits : ℚ
  credits_enabled : Bool
  uses_own_key : Bool
deriving Repr, DecidableEq

/-- One row of the credit_history collection, as inserted by
deduct_credits and add_credits. -/
structure LedgerEntry where
  user_id : String
  delta : ℚ
  reason : String
  reference_type : String
  reference_id : String
  balance_after : ℚ
deriving Repr, DecidableEq

/-- The system_settings rates, with the defaults from CreditService.get_settings. -/
structure Settings where
  credits_per_1k_tokens_chat : ℚ := 1/2
  credits_per_1k_tokens_project : ℚ := 1
deriving Repr, DecidableEq

/-- Python round(x, 4) modelled as half-up decimal rounding on exact
rationals (the source computes on floats; float representation error is out
of scope of this embedding). -/
def round4 (x : ℚ) : ℚ := ((⌊x * 10000 + 1/2⌋ : ℤ) : ℚ) / 10000

/-- Python round(x, 2), same modelling as round4. -/
def round2 (x : ℚ) : ℚ := ((⌊x * 100 + 1/2⌋ : ℤ) : ℚ) / 100

/-- CreditService.calculate_credits: round((tokens / 1000) * rate, 4) with the
rate picked by the is_project flag. -/
def calculate_credits (s : Settings) (tokens : ℕ) (is_project : Bool) : ℚ :=
  round4 ((tokens : ℚ) / 1000 *
    (if is_project then s.credits_per_1k_tokens_project else s.credits_per_1k_tokens_chat))

/-- The users and credit_history collections. -/
structure CreditDB where
  users : List UserRec
  ledger : List LedgerEntry
deriving Repr, DecidableEq

/-- db.users.find_one by id. -/
def findUser (c : CreditDB) (uid : String) : Option UserRec :=
  c.users.find? (fun u => u.id == uid)

/-- db.users.update_one setting the credits field of the matching row. -/
def updateUserCredits (c : CreditDB) (uid : String) (newBal : ℚ) : CreditDB :=
  { c with users := c.users.map (fun u => if u.id == uid then { u with credits := newBal } else u) }

/-- Outcome dictionary of CreditService.deduct_credits.  userNotFound and
insufficient carry success=False; exempt and charged carry success=True. -/
inductive DeductOutcome where
  | userNotFound
  | exempt (balance : ℚ)
  | insufficient (required available : ℚ)
  | charged (amount newBalance : ℚ)
deriving Repr, DecidableEq

/-- The success field of the returned dictionary. -/
def DeductOutcome.success : DeductOutcome → Bool
  | .userNotFound => false
  | .exempt _ => true
  | .insufficient _ _ => false
  | .charged _ _ => true

/-- CreditService.deduct_credits.  Order of checks follows the source: user
lookup, credits_enabled exemption, own-key exemption, balance check, then
the balance update and the ledger insert. -/
def deduct_credits (c : CreditDB) (uid : String) (amount : ℚ) (reason : String)
    (refType refId : String) : DeductOutcome × CreditDB :=
  match findUser c uid with
  | none => (.userNotFound, c)
  | some u =>
    if !u.credits_enabled then (.exempt u.credits, c)
    else if u.uses_own_key then (.exempt u.credits, c)
    else if u.credits < amount then (.insufficient amount u.credits, c)
    else
      let newBal := u.credits - amount
      let c1 := updateUserCredits c uid newBal
      (.charged amount newBal,
        { c1 with ledger := c1.ledger ++
            [{ user_id := uid, delta := -amount, reason := reason,
               reference_type := refType, reference_id := refId,
               balance_after := newBal }] })

/-- CreditService.should_charge: False if credits are disabled or the user
has an own key, True otherwise. -/
def should_charge (u : UserRec) : Bool :=
  u.credits_enabled && !u.uses_own_key

/-! ## Job and task records (job_orchestration_service.py) -/

/-- One task dictionary embedded in a job, with the fields created by the
planner and mutated by the orchestrator. -/
structure Task where
  id : String
  title : String
  description : String
  agent_type : String
  order : ℕ
  status : String
  estimated_tokens : ℕ
  estimated_credits : ℚ
  actual_tokens : ℕ
  actual_credits : ℚ
  dependencies : List String
  deliverables : List String
  output : Option String
  files_created : List String
  error : Option String
deriving Repr, DecidableEq

/-- A job document.  create_job initialises current_task_index to -1; every
execution path the claims concern runs after approve_job has set it to a
natural number, so the cursor is modelled as a natural number here. -/
structure Job where
  id : String
  project_id : String
  user_id : String
  status : String
  tasks : List Task
  total_estimated_credits : ℚ
  credits_used : ℚ
  credits_approved : ℚ
  credits_needed : ℚ
  current_task_index : ℕ
  error_count : ℕ
  max_errors : ℕ
  error : Option String
deriving Repr, DecidableEq

/-- The AgentResult dataclass of base_agent.py (the open metadata dictionary
is modelled separately, only where a claim depends on it). -/
structure AgentResult where
  success : Bool
  content : String
  tokens_used : ℕ
  files_created : List (String × String)
  tasks_generated : List Task
  errors : List String
deriving Repr, DecidableEq

/-- The database state the orchestrator reads and writes: the job document
being executed, the users and credit_history collections, and the
project_files rows (path, content) of the project of the job. -/
structure Db where
  job : Job
  credit : CreditDB
  files : List (String × String)
deriving Repr, DecidableEq

/-- Progress events yielded by execute_job (field names follow the wire
payloads; string message fields derived by formatting are elided). -/
inductive Event where
  | error (message : String)
  | job_started (job_id : String) (total_tasks : ℕ)
  | needs_credits (credits_needed current_credits : ℚ) (completed_tasks remaining_tasks : ℕ)
  | task_started (task_index : ℕ) (task_id title agent : String)
  | task_completed (task_index : ℕ) (task_id : String) (success : Bool)
      (files_created : List String) (credits_used : ℚ)
  | auto_fix_applied (task_id description : String)
  | job_failed (reason : String)
  | task_error (task_index : ℕ) (task_id error : String)
  | job_completed (job_id : String) (total_credits_used : ℚ) (files_created : ℕ)
deriving Repr, DecidableEq

/-! ## Cost estimation and approval -/

/-- The fields of the estimate dictionary of CreditService.estimate_job_cost
that approve_job consults.  In a free-usage return the sufficient_credits
key is absent in the source and a missing key reads as falsy, hence false
here. -/
structure EstimateResult where
  total_estimated_credits : ℚ
  free_usage : Bool
  sufficient_credits : Bool
deriving Repr, DecidableEq

/-- CreditService.estimate_job_cost.  In the charging branch it writes the
per-task rounded credit estimate into each task dictionary (a mutation of
the list of the caller, returned here as the second component), accumulates the
unrounded total for the sufficiency check and rounds the reported total to
two decimals. -/
def estimate_job_cost (s : Settings) (tasks : List Task) (u : UserRec) :
    EstimateResult × List Task :=
  if u.uses_own_key then
    ({ total_estimated_credits := 0, free_usage := true, sufficient_credits := false }, tasks)
  else if !u.credits_enabled then
    ({ total_estimated_credits := 0, free_usage := true, sufficient_credits := false }, tasks)
  else
    let tasks2 := tasks.map (fun t =>
      { t with estimated_credits :=
          round4 ((t.estimated_tokens : ℚ) / 1000 * s.credits_per_1k_tokens_project) })
    let total := (tasks2.map Task.estimated_credits).sum
    ({ total_estimated_credits := round2 total,
       free_usage := false,
       sufficient_credits := decide (total ≤ u.credits) }, tasks2)

/-- Outcome of JobOrchestrationService.approve_job. -/
inductive ApproveOutcome where
  | notFound
  | badStatus (status : String)
  | insufficientCredits (required available : ℚ)
  | approved (total : ℚ)
deriving Repr, DecidableEq

/-- JobOrchestrationService.approve_job, acting on the job document held in
the state (the find_one filter on job id and user id becomes the user_id
guard). -/
def approve_job (s : Settings) (db : Db) (user : UserRec)
    (modified_tasks : Option (List Task)) : ApproveOutcome × Db :=
  if db.job.user_id ≠ user.id then (.notFound, db)
  else if db.job.status ≠ "awaiting_approval" ∧ db.job.status ≠ "needs_more_credits" then
    (.badStatus db.job.status, db)
  else
    let tasks := modified_tasks.getD db.job.tasks
    let est := estimate_job_cost s tasks user
    if !est.1.free_usage ∧ !est.1.sufficient_credits then
      (.insufficientCredits est.1.total_estimated_credits user.credits, db)
    else
      (.approved est.1.total_estimated_credits,
        { db with job := { db.job with
            status := "approved",
            tasks := est.2,
            total_estimated_credits := est.1.total_estimated_credits,
            credits_approved := est.1.total_estimated_credits,
            current_task_index := 0 } })

/-- Outcome of the continue_job route of server.py. -/
inductive ContinueOutcome where
  | notFound
  | notWaiting
  | cancelled
  | willContinue
deriving Repr, DecidableEq

/-- The continue_job route of server.py: only a job in needs_more_credits
may continue; declining cancels it; approving sets the status back to
approved and touches nothing else. -/
def continue_job (db : Db) (user : UserRec) (approved : Bool) : ContinueOutcome × Db :=
  if db.job.user_id ≠ user.id then (.notFound, db)
  else if db.job.status ≠ "needs_more_credits" then (.notWaiting, db)
  else if !approved then
    (.cancelled, { db with job := { db.job with status := "cancelled" } })
  else
    (.willContinue, { db with job := { db.job with status := "approved" } })

/-! ## The execution loop (execute_job) -/

/-- Result of one _execute_task call: either the agent call raised an
exception that escapes into the per-task try block of the orchestrator, or it
returned an AgentResult. -/
inductive TaskOutcome where
  | raises (message : String)
  | returns (r : AgentResult)
deriving Repr, DecidableEq

/-- External behaviour feeding one run of execute_job: the system settings
and, per task index, the outcome of _execute_task and the AgentResult of
the debugger call made by _attempt_auto_fix. -/
structure Env where
  settings : Settings
  outcomes : ℕ → TaskOutcome
  fixOutcome : ℕ → AgentResult

/-- The balance read db.users.find_one performs before each task.  The
source assumes the user row exists (a missing row would raise); every
theorem below supplies the row explicitly. -/
def user_balance (c : CreditDB) (uid : String) : ℚ :=
  ((findUser c uid).map UserRec.credits).getD 0

/-- JobOrchestrationService._save_file: upsert of a project file by path. -/
def save_file (files : List (String × String)) (f : String × String) :
    List (String × String) :=
  if files.any (fun g => g.1 == f.1) then
    files.map (fun g => if g.1 == f.1 then (g.1, f.2) else g)
  else files ++ [f]

/-- Folding _save_file over the files an agent produced. -/
def save_files (files : List (String × String)) (fs : List (String × String)) :
    List (String × String) :=
  fs.foldl save_file files

/-- JobOrchestrationService._update_task: writes the task at the given index
and sets current_task_index to that index. -/
def update_task (db : Db) (i : ℕ) (t : Task) : Db :=
  { db with job := { db.job with tasks := db.job.tasks.set i t, current_task_index := i } }

/-- JobOrchestrationService._estimate_remaining_cost over the task slice
from the cursor on. -/
def estimate_remaining (s : Settings) (remaining : List Task) : ℚ :=
  calculate_credits s (remaining.map Task.estimated_tokens).sum true

/-- The result-processing block of the per-task try body (lines 222 to 243
of the source): sets the task status from the success flag, records output,
token and credit actuals, persists produced files, joins errors, and then
deducts credits exactly when charging applies and the computed actual
credits are positive, accumulating into the running total (the outcome
dictionary of deduct_credits is discarded by the source).  Returns the
updated state, running total and task. -/
def process_result (s : Settings) (shouldCh : Bool) (uid : String) (task1 : Task)
    (r : AgentResult) (db : Db) (tot : ℚ) : Db × ℚ × Task :=
  let ac := calculate_credits s r.tokens_used true
  let task2 := { task1 with
    status := if r.success then "completed" else "failed",
    output := some r.content,
    actual_tokens := r.tokens_used,
    actual_credits := ac,
    files_created := if !r.files_created.isEmpty then r.files_created.map Prod.fst
                     else task1.files_created,
    error := if !r.errors.isEmpty then some (String.intercalate "; " r.errors)
             else task1.error }
  let db1 := if !r.files_created.isEmpty then
               { db with files := save_files db.files r.files_created }
             else db
  if shouldCh ∧ 0 < ac then
    ({ db1 with credit :=
        (deduct_credits db1.credit uid ac (String.append "Task: " task1.title)
          "job_task" task1.id).2 },
     tot + ac, task2)
  else (db1, tot, task2)

/-- JobOrchestrationService._attempt_auto_fix: runs the debugger agent; when
it reports success with files, the files are persisted and a fix
description is returned, otherwise None. -/
def attempt_auto_fix (env : Env) (i : ℕ) (db : Db) : Db × Option String :=
  let r := env.fixOutcome i
  if r.success && !r.files_created.isEmpty then
    ({ db with files := save_files db.files r.files_created }, some "Applied automatic fixes")
  else (db, none)

/-- The task loop of execute_job.  The source iterates i over
range(current_index, len(tasks)) reading tasks[i] from the task list
fetched at entry; here the not-yet-visited slice tasks[i:] of that list is
the structural argument rem and i the running index, so rem is
snapshot.tasks.drop i at every call reached from execute_job (the source
mutates the in-memory list only at indices already passed, so entry i is
still as fetched when the loop reaches it).  The remaining-task count of the pause event, len(tasks) - i is the length of the slice.  The
snapshot supplies the error_count and max_errors values: the source reads
them from the job dictionary fetched once before the loop and never
refreshed, and never writes the incremented counter back. -/
def execLoop (env : Env) (user : UserRec) (snapshot : Job) (jobId : String) :
    List Task → ℕ → Db → ℚ → Db × List Event
  | [], _, db, tot =>
    ({ db with job := { db.job with status := "completed", credits_used := tot } },
     [.job_completed jobId tot (db.job.tasks.map (fun t => t.files_created.length)).sum])
  | task :: rem, i, db, tot =>
    let shouldCh := should_charge user
    let bal := user_balance db.credit user.id
    if shouldCh = true ∧ bal < task.estimated_credits then
      let remaining := estimate_remaining env.settings (task :: rem)
      ({ db with job := { db.job with
            status := "needs_more_credits",
            current_task_index := i,
            credits_needed := remaining } },
       [.needs_credits remaining bal i (task :: rem).length])
    else
      let task1 := { task with status := "running" }
      let db1 := update_task db i task1
      let evStart := Event.task_started i task.id task.title task.agent_type
      match env.outcomes i with
      | .raises msg =>
        let task2 := { task1 with status := "failed", error := some msg }
        let db2 := update_task db1 i task2
        let rest := execLoop env user snapshot jobId rem (i + 1) db2 tot
        (rest.1, evStart :: .task_error i task.id msg :: rest.2)
      | .returns r =>
        let pr := process_result env.settings shouldCh user.id task1 r db1 tot
        let db4 := update_task pr.1 i pr.2.2
        let evDone := Event.task_completed i task.id r.success pr.2.2.files_created
          pr.2.2.actual_credits
        if !r.success && !r.errors.isEmpty then
          let errorCount := snapshot.error_count + 1
          if errorCount < snapshot.max_errors then
            let fx := attempt_auto_fix env i db4
            let fixEvs := match fx.2 with
              | some d => [Event.auto_fix_applied task.id d]
              | none => []
            let rest := execLoop env user snapshot jobId rem (i + 1) fx.1 pr.2.1
            (rest.1, evStart :: evDone :: fixEvs ++ rest.2)
          else
            ({ db4 with
                job := { db4.job with
                  status := "failed",
                  error := some "Too many errors" } },
             [evStart, evDone, .job_failed "Too many errors"])
        else
          let rest := execLoop env user snapshot jobId rem (i + 1) db4 pr.2.1
          (rest.1, evStart :: evDone :: rest.2)

/-- JobOrchestrationService.execute_job for a job and project that exist
(the two not-found early returns are modelled away; every claim concerns an
existing job): set the status to in_progress, emit job_started, and run the
task loop from the persisted cursor with the persisted credits_used as the
running total. -/
def execute_job (env : Env) (user : UserRec) (db : Db) : Db × List Event :=
  let job := db.job
  let db1 : Db := { db with job := { job with status := "in_progress" } }
  let r := execLoop env user job job.id (job.tasks.drop job.current_task_index)
    job.current_task_index db1 job.credits_used
  (r.1, .job_started job.id job.tasks.length :: r.2)

/-! ## Planner agent (planner_agent.py) -/

/-- The content and token count of a successful generation provider call;
an Except.error models a raised provider exception. -/
structure GenResp where
  content : String
  tokens : ℕ
deriving Repr, DecidableEq

/-- A raw task dictionary inside the parsed planner JSON; each field read
with a default in the source is an Option here. -/
structure PTask where
  id : Option String
  title : Option String
  description : Option String
  agent_type : Option String
  order : Option ℕ
  estimated_tokens : Option ℕ
  dependencies : Option (List String)
  deliverables : Option (List String)
deriving Repr, DecidableEq

/-- Outcome of _parse_json_from_response followed by the truthiness and
tasks-key test of PlannerAgent.execute: no JSON found (or a falsy value), a
JSON object without a tasks key, or a JSON object with one. -/
inductive PlanParse where
  | failed
  | missingTasks
  | withTasks (ts : List PTask)
deriving Repr, DecidableEq

/-- Normalisation of one raw planner task into a task dictionary, as in
PlannerAgent.execute; fresh supplies the uuid-based id generated when the
raw task has none. -/
def normalizeTask (fresh : ℕ → String) (i : ℕ) (t : PTask) : Task :=
  { id := t.id.getD (fresh i),
    title := t.title.getD (String.append "Task " (toString (i + 1))),
    description := t.description.getD "",
    agent_type := t.agent_type.getD "developer",
    order := t.order.getD (i + 1),
    status := "pending",
    estimated_tokens := t.estimated_tokens.getD 500,
    estimated_credits := 0,
    actual_tokens := 0,
    actual_credits := 0,
    dependencies := t.dependencies.getD [],
    deliverables := t.deliverables.getD [],
    output := none,
    files_created := [],
    error := none }

/-- Builder for the five fallback tasks of _create_fallback_plan. -/
def fallbackTask (freshId : String) (title description agentType : String)
    (ord tokens : ℕ) (dependencies deliverables : List String) : Task :=
  { id := freshId,
    title := title,
    description := description,
    agent_type := agentType,
    order := ord,
    status := "pending",
    estimated_tokens := tokens,
    estimated_credits := 0,
    actual_tokens := 0,
    actual_credits := 0,
    dependencies := dependencies,
    deliverables := deliverables,
    output := none,
    files_created := [],
    error := none }

/-- PlannerAgent._create_fallback_plan: the fixed five-step plan (research,
scaffold, implement, test, verify) returned when the response did not parse
into a plan with a tasks key. -/
def create_fallback_plan (fresh : ℕ → String) (language originalTask aiResponse : String)
    (tokens : ℕ) : AgentResult :=
  { success := true,
    content := if aiResponse = "" then "Created default task breakdown" else aiResponse,
    tokens_used := tokens,
    files_created := [],
    tasks_generated :=
      [fallbackTask (fresh 0) "Research Requirements"
         (String.append "Research best practices and patterns for: " (originalTask.take 100))
         "researcher" 1 800 [] ["Research notes"],
       fallbackTask (fresh 1) "Create Project Structure"
         (String.append "Create the initial " (String.append language
           " project structure and main files"))
         "developer" 2 1500 ["task-1"] ["Project files"],
       fallbackTask (fresh 2) "Implement Core Logic"
         "Implement the main functionality as requested"
         "developer" 3 2000 ["task-2"] ["Implementation code"],
       fallbackTask (fresh 3) "Create Tests"
         "Create test cases for the implementation"
         "test_designer" 4 1000 ["task-3"] ["Test files"],
       fallbackTask (fresh 4) "Verify Implementation"
         "Verify the implementation meets all requirements"
         "verifier" 5 500 ["task-4"] ["Verification report"]],
    errors := [] }

/-- PlannerAgent.execute.  The generation call and the JSON parse are
oracle parameters: gen is the outcome of ai_service.generate on the built
prompt, parse is what _parse_json_from_response plus the tasks-key test
yields on the returned content.  A raised provider exception is caught and
becomes a failure result; a parsed plan with a tasks key yields the
normalised tasks; anything else yields the fallback plan. -/
def planner_execute (fresh : ℕ → String) (language originalTask : String)
    (gen : Except String GenResp) (parse : String → PlanParse) : AgentResult :=
  match gen with
  | .error e =>
    { success := false, content := e, tokens_used := 0, files_created := [],
      tasks_generated := [], errors := [e] }
  | .ok resp =>
    match parse resp.content with
    | .withTasks ts =>
      { success := true, content := resp.content, tokens_used := resp.tokens,
        files_created := [],
        tasks_generated := ts.mapIdx (fun i t => normalizeTask fresh i t),
        errors := [] }
    | _ => create_fallback_plan fresh language originalTask resp.content resp.tokens

/-! ## Prompt building and the developer agent (base_agent.py, developer_agent.py) -/

/-- The project_context dictionary given to an agent at construction. -/
structure ProjectCtx where
  name : Option String
  language : Option String
  description : Option String
deriving Repr, DecidableEq

/-- One entry of context.previous_outputs; _build_prompt subscripts the
agent and summary keys directly, so a missing key raises. -/
structure PrevOutput where
  agent : Option String
  summary : Option String
deriving Repr, DecidableEq

/-- One entry of context.existing_files; _build_prompt subscripts the path
key directly. -/
structure FileRef where
  path : Option String
  content : Option String
deriving Repr, DecidableEq

/-- The context dictionary passed to Agent.execute. -/
structure Ctx where
  previous_outputs : Option (List PrevOutput)
  existing_files : Option (List FileRef)
  errors : Option (List String)
deriving Repr, DecidableEq

/-- Line rendered for one previous output: subscripting a missing agent or
summary key raises a KeyError, modelled as Except.error. -/
def prevOutputLine (o : PrevOutput) : Except String String :=
  match o.agent with
  | none => .error "KeyError: agent"
  | some a =>
    match o.summary with
    | none => .error "KeyError: summary"
    | some s => .ok (String.append "[" (String.append a
        (String.append "]: " (s.take 500))))

/-- Line rendered for one existing file entry. -/
def fileLine (f : FileRef) : Except String String :=
  match f.path with
  | none => .error "KeyError: path"
  | some p => .ok (String.append "- " p)

/-- Truthiness of an optional list, as Python tests context.get(key). -/
def truthyList {α : Type} (l : Option (List α)) : Bool :=
  match l with
  | none => false
  | some xs => !xs.isEmpty

/-- BaseAgent._build_prompt.  Joins the project context section, the last
three previous outputs, the first ten existing files, the errors section
and the task into one prompt; any KeyError raised while rendering a section
propagates (the source performs no exception handling here). -/
def build_prompt (pc : ProjectCtx) (task : String) (ctx : Option Ctx) :
    Except String String := do
  let pcParts : List String :=
    if pc.name ≠ none ∨ pc.language ≠ none ∨ pc.description ≠ none then
      ["## Project Context",
       String.append "Language: " (pc.language.getD "Unknown"),
       String.append "Project: " (pc.name.getD "Unknown")] ++
      (match pc.description with
       | some d => if d = "" then [""] else [String.append "Description: " d, ""]
       | none => [""])
    else []
  let ctxParts : List String ←
    match ctx with
    | none => pure []
    | some c => do
      let po ←
        if truthyList c.previous_outputs then do
          let l := c.previous_outputs.getD []
          let rendered ← (l.drop (l.length - 3)).mapM prevOutputLine
          pure (["## Previous Agent Outputs"] ++ rendered ++ [""])
        else pure []
      let ef ←
        if truthyList c.existing_files then do
          let l := c.existing_files.getD []
          let rendered ← (l.take 10).mapM fileLine
          pure (["## Existing Files"] ++ rendered ++ [""])
        else pure []
      let er :=
        if truthyList c.errors then
          ["## Errors to Address"] ++
            (c.errors.getD []).map (fun e => String.append "- " e) ++ [""]
        else []
      pure (po ++ ef ++ er)
  pure (String.intercalate "\n" (pcParts ++ ctxParts ++ ["## Task", task]))

/-- The instruction suffix DeveloperAgent.execute appends to the prompt. -/
def developerSuffix : String :=
  "\n\nCreate all necessary files for this task. Use the exact format: ### filename.ext followed by code block."

/-- DeveloperAgent.execute.  The prompt is built before the try block, so a
KeyError from a malformed context propagates as a raised exception (the
Except.error of the result); inside the try block a provider failure is
caught and becomes an unsuccessful AgentResult.  gen maps the full prompt
to the provider outcome; extract is the regex file extraction
_extract_files_from_response applied to the returned content. -/
def developer_execute (pc : ProjectCtx) (task : String) (ctx : Option Ctx)
    (gen : String → Except String GenResp)
    (extract : String → List (String × String)) : Except String AgentResult :=
  match build_prompt pc task ctx with
  | .error e => .error e
  | .ok prompt =>
    match gen (String.append prompt developerSuffix) with
    | .error e =>
      .ok { success := false, content := e, tokens_used := 0, files_created := [],
            tasks_generated := [], errors := [e] }
    | .ok resp =>
      .ok { success := true, content := resp.content, tokens_used := resp.tokens,
            files_created := extract resp.content, tasks_generated := [], errors := [] }

/-! ## Verifier agent (verifier_agent.py) -/

/-- Python str.upper on the response content (ASCII, as produced by the
per-character uppercase map). -/
def pyUpper (s : String) : String := s.map Char.toUpper

/-- Contiguous containment of pat in s, over character lists. -/
def containsList : List Char → List Char → Bool
  | s, pat =>
    if pat.isPrefixOf s then true
    else match s with
      | [] => false
      | _ :: t => containsList t pat

/-- Python substring containment pat in s. -/
def strContains (s pat : String) : Bool := containsList s.data pat.data

/-- The verdict test of VerifierAgent.execute, line 74 of the source:
passed iff the upper-cased content contains the marker with asterisks or
the VERDICT: PASS form. -/
def verifier_passed (content : String) : Bool :=
  strContains (pyUpper content) "**PASS**" || strContains (pyUpper content) "VERDICT: PASS"

/-- The verdict test the specification describes: a bare case-insensitive
PASS substring match on the content. -/
def spec_verifier_passed (content : String) : Bool :=
  strContains (pyUpper content) "PASS"

/-- The metadata dictionary VerifierAgent.execute attaches on success. -/
structure VerifierMeta where
  verification_passed : Bool
  verdict : String
deriving Repr, DecidableEq

/-- VerifierAgent.execute, from the try block on (the prompt assembly does
not influence the verdict and is modelled for the developer agent): a
successful generation yields a successful result carrying the verdict
metadata, a raised provider error is caught into a failure result without
metadata. -/
def verifier_execute (gen : Except String GenResp) : AgentResult × Option VerifierMeta :=
  match gen with
  | .error e =>
    ({ success := false, content := e, tokens_used := 0, files_created := [],
       tasks_generated := [], errors := [e] }, none)
  | .ok resp =>
    ({ success := true, content := resp.content, tokens_used := resp.tokens,
       files_created := [], tasks_generated := [], errors := [] },
     some { verification_passed := verifier_passed resp.content,
            verdict := if verifier_passed resp.content then "PASS" else "FAIL" })

/-! ## Event predicates and concrete fixtures used by the theorems -/

/-- True unless the event is a task_started with index below k. -/
def startedGe (k : ℕ) (e : Event) : Bool :=
  match e with
  | .task_started j _ _ _ => decide (k ≤ j)
  | _ => true

/-- True exactly on task_started events. -/
def isTaskStarted (e : Event) : Bool :=
  match e with
  | .task_started _ _ _ _ => true
  | _ => false

/-- True exactly on auto_fix_applied events. -/
def isAutoFix (e : Event) : Bool :=
  match e with
  | .auto_fix_applied _ _ => true
  | _ => false

/-- True exactly on job_failed events. -/
def isJobFailed (e : Event) : Bool :=
  match e with
  | .job_failed _ => true
  | _ => false

/-- A fresh pending task, as the planner creates them. -/
def sampleTask (name : String) (tok : ℕ) (ec : ℚ) : Task :=
  { id := name, title := name, description := "", agent_type := "developer", order := 1,
    status := "pending", estimated_tokens := tok, estimated_credits := ec,
    actual_tokens := 0, actual_credits := 0, dependencies := [], deliverables := [],
    output := none, files_created := [], error := none }

/-- A user whose account has credits disabled (exempt from charging). -/
def freeUser : UserRec :=
  { id := "u", credits := 0, credits_enabled := false, uses_own_key := false }

/-- A user subject to charging with the given balance. -/
def chargedUser (bal : ℚ) : UserRec :=
  { id := "u", credits := bal, credits_enabled := true, uses_own_key := false }

/-- An agent result reporting failure with one error and no token usage. -/
def failingResult : AgentResult :=
  { success := false, content := "bad", tokens_used := 0, files_created := [],
    tasks_generated := [], errors := ["boom"] }

/-- An agent result reporting success with no token usage. -/
def okResult : AgentResult :=
  { success := true, content := "ok", tokens_used := 0, files_created := [],
    tasks_generated := [], errors := [] }

/-- A debugger result that produces a fix file. -/
def fixResult : AgentResult :=
  { success := true, content := "fix", tokens_used := 0,
    files_created := [("fix.py", "code")], tasks_generated := [], errors := [] }

/-- A debugger result that produces nothing. -/
def noFixResult : AgentResult :=
  { success := false, content := "", tokens_used := 0, files_created := [],
    tasks_generated := [], errors := [] }

/-- A job document for user u with the given tasks, error budget, cursor
and status. -/
def sampleJob (tasks : List Task) (maxErr cursor : ℕ) (status : String) : Job :=
  { id := "job1", project_id := "p1", user_id := "u", status := status, tasks := tasks,
    total_estimated_credits := 0, credits_used := 0, credits_approved := 0,
    credits_needed := 0, current_task_index := cursor, error_count := 0,
    max_errors := maxErr, error := none }

/-- A database holding one user row and one job. -/
def sampleDb (user : UserRec) (job : Job) : Db :=
  { job := job, credit := { users := [user], ledger := [] }, files := [] }

/-- Environment for the error-budget run: every task fails with one error
and the debugger always produces a fix. -/
def c4Env : Env :=
  { settings := {}, outcomes := fun _ => .returns failingResult,
    fixOutcome := fun _ => fixResult }

/-- Six pending tasks, error budget five, cursor zero. -/
def c4Db : Db :=
  sampleDb freeUser
    (sampleJob (["t1", "t2", "t3", "t4", "t5", "t6"].map (fun n => sampleTask n 500 0))
      5 0 "approved")

/-- Environment in which the first task raises and the second succeeds. -/
def c5Env : Env :=
  { settings := {},
    outcomes := fun i => if i = 0 then .raises "boom" else .returns okResult,
    fixOutcome := fun _ => noFixResult }

/-- Environment in which the first task returns a failure result (instead
of raising) and the second succeeds. -/
def c5EnvContrast : Env :=
  { settings := {},
    outcomes := fun i => if i = 0 then .returns failingResult else .returns okResult,
    fixOutcome := fun _ => noFixResult }

/-- Two pending tasks with an error budget of one, cursor zero. -/
def c5Db : Db :=
  sampleDb freeUser (sampleJob [sampleTask "t1" 500 0, sampleTask "t2" 500 0] 1 0 "approved")

/-- A user exempt through an own model key. -/
def ownKeyUser : UserRec :=
  { id := "u", credits := 0, credits_enabled := true, uses_own_key := true }

/-- Credit store with one exempt user at zero balance. -/
def c1Db : CreditDB :=
  { users := [freeUser], ledger := [] }

/-- Credit store with one charging user holding ten credits. -/
def c1WitDb : CreditDB :=
  { users := [chargedUser 10], ledger := [] }

/-- Environment in which every task succeeds quietly. -/
def quietEnv : Env :=
  { settings := {}, outcomes := fun _ => .returns okResult,
    fixOutcome := fun _ => noFixResult }

/-- A charging user holding a quarter credit. -/
def c2User : UserRec := chargedUser (1/4)

/-- One task estimated at half a credit, owned by the quarter-credit user. -/
def c2Db : Db :=
  sampleDb c2User (sampleJob [sampleTask "t1" 500 (1/2)] 5 0 "approved")

/-- A job paused in needs_more_credits with cursor one. -/
def c3Db : Db :=
  sampleDb freeUser
    (sampleJob [sampleTask "t1" 500 0, sampleTask "t2" 500 0] 5 1 "needs_more_credits")

/-- A finished job, not approvable. -/
def c8DbDone : Db := sampleDb freeUser (sampleJob [] 5 0 "completed")

/-- A job awaiting approval, owned by the own-key user. -/
def c8DbAwait : Db :=
  sampleDb ownKeyUser (sampleJob [sampleTask "t1" 500 0] 5 0 "awaiting_approval")

/-- Deterministic id supply for the planner embedding. -/
def c6Fresh : ℕ → String := fun i => String.append "task-id-" (toString i)

/-- Parse oracle for a response whose JSON object carries an empty tasks
list (what _parse_json_from_response yields on such a response). -/
def c6ParseEmpty : String → PlanParse := fun _ => .withTasks []

/-- Empty project context. -/
def c7Pc : ProjectCtx := { name := none, language := none, description := none }

/-- A malformed context: one previous output whose dictionary lacks the
agent key. -/
def c7BadCtx : Ctx :=
  { previous_outputs := some [{ agent := none, summary := some "s" }],
    existing_files := none, errors := none }

/-- A generation oracle that always succeeds. -/
def c7Gen : String → Except String GenResp :=
  fun _ => .ok { content := "done", tokens := 5 }

/-- A generation oracle that always times out. -/
def c7GenFail : String → Except String GenResp := fun _ => .error "timeout"

/-- A file extraction oracle that finds nothing. -/
def c7Extract : String → List (String × String) := fun _ => []

/-! ## Unfolding lemmas for the execution loop, one per branch -/

lemma execLoop_stop (env : Env) (user : UserRec) (snapshot : Job) (jobId : String)
    (i : ℕ) (db : Db) (tot : ℚ) :
    execLoop env user snapshot jobId [] i db tot =
      ({ db with job := { db.job with status := "completed", credits_used := tot } },
       [.job_completed jobId tot (db.job.tasks.map (fun t => t.files_created.length)).sum]) :=
  rfl

lemma execLoop_pause (env : Env) (user : UserRec) (snapshot : Job) (jobId : String)
    (task : Task) (rem : List Task) (i : ℕ) (db : Db) (tot : ℚ)
    (hp : should_charge user = true ∧
      user_balance db.credit user.id < task.estimated_credits) :
    execLoop env user snapshot jobId (task :: rem) i db tot =
      ({ db with job := { db.job with
            status := "needs_more_credits",
            current_task_index := i,
            credits_needed := estimate_remaining env.settings (task :: rem) } },
       [.needs_credits (estimate_remaining env.settings (task :: rem))
          (user_balance db.credit user.id) i (task :: rem).length]) := by
  rw [execLoop]
  simp only [if_pos hp]

lemma execLoop_raises (env : Env) (user : UserRec) (snapshot : Job) (jobId : String)
    (task : Task) (rem : List Task) (i : ℕ) (db : Db) (tot : ℚ) (msg : String)
    (hp : ¬ (should_charge user = true ∧
      user_balance db.credit user.id < task.estimated_credits))
    (hout : env.outcomes i = .raises msg) :
    execLoop env user snapshot jobId (task :: rem) i db tot =
      ((execLoop env user snapshot jobId rem (i + 1)
          (update_task (update_task db i { task with status := "running" }) i
            { task with status := "failed", error := some msg }) tot).1,
       .task_started i task.id task.title task.agent_type ::
       .task_error i task.id msg ::
       (execLoop env user snapshot jobId rem (i + 1)
          (update_task (update_task db i { task with status := "running" }) i
            { task with status := "failed", error := some msg }) tot).2) := by
  rw [execLoop]
  simp only [if_neg hp, hout]

lemma execLoop_returns_ok (env : Env) (user : UserRec) (snapshot : Job) (jobId : String)
    (task : Task) (rem : List Task) (i : ℕ) (db : Db) (tot : ℚ) (r : AgentResult)
    (hp : ¬ (should_charge user = true ∧
      user_balance db.credit user.id < task.estimated_credits))
    (hout : env.outcomes i = .returns r)
    (hgood : (!r.success && !r.errors.isEmpty) = false) :
    execLoop env user snapshot jobId (task :: rem) i db tot =
      (let pr := process_result env.settings (should_charge user) user.id
         { task with status := "running" } r (update_task db i { task with status := "running" }) tot
       let db4 := update_task pr.1 i pr.2.2
       let rest := execLoop env user snapshot jobId rem (i + 1) db4 pr.2.1
       (rest.1,
        .task_started i task.id task.title task.agent_type ::
        .task_completed i task.id r.success pr.2.2.files_created pr.2.2.actual_credits :: rest.2)) := by
  rw [execLoop]
  simp only [if_neg hp, hout, hgood, Bool.false_eq_true, if_false]

lemma execLoop_fail_fix (env : Env) (user : UserRec) (snapshot : Job) (jobId : String)
    (task : Task) (rem : List Task) (i : ℕ) (db : Db) (tot : ℚ) (r : AgentResult)
    (hp : ¬ (should_charge user = true ∧
      user_balance db.credit user.id < task.estimated_credits))
    (hout : env.outcomes i = .returns r)
    (hbad : (!r.success && !r.errors.isEmpty) = true)
    (hcnt : snapshot.error_count + 1 < snapshot.max_errors) :
    execLoop env user snapshot jobId (task :: rem) i db tot =
      (let pr := process_result env.settings (should_charge user) user.id
         { task with status := "running" } r (update_task db i { task with status := "running" }) tot
       let db4 := update_task pr.1 i pr.2.2
       let fx := attempt_auto_fix env i db4
       let rest := execLoop env user snapshot jobId rem (i + 1) fx.1 pr.2.1
       (rest.1,
        .task_started i task.id task.title task.agent_type ::
        .task_completed i task.id r.success pr.2.2.files_created pr.2.2.actual_credits ::
        ((match fx.2 with
          | some d => [Event.auto_fix_applied task.id d]
          | none => []) ++ rest.2))) := by
  rw [execLoop]
  simp only [if_neg hp, hout, hbad, if_true, if_pos hcnt]
  rfl

lemma execLoop_fail_stop (env : Env) (user : UserRec) (snapshot : Job) (jobId : String)
    (task : Task) (rem : List Task) (i : ℕ) (db : Db) (tot : ℚ) (r : AgentResult)
    (hp : ¬ (should_charge user = true ∧
      user_balance db.credit user.id < task.estimated_credits))
    (hout : env.outcomes i = .returns r)
    (hbad : (!r.success && !r.errors.isEmpty) = true)
    (hcnt : ¬ snapshot.error_count + 1 < snapshot.max_errors) :
    execLoop env user snapshot jobId (task :: rem) i db tot =
      (let pr := process_result env.settings (should_charge user) user.id
         { task with status := "running" } r (update_task db i { task with status := "running" }) tot
       let db4 := update_task pr.1 i pr.2.2
       ({ db4 with job := { db4.job with status := "failed", error := some "Too many errors" } },
        [.task_started i task.id task.title task.agent_type,
         .task_completed i task.id r.success pr.2.2.files_created pr.2.2.actual_credits,
         .job_failed "Too many errors"])) := by
  rw [execLoop]
  simp only [if_neg hp, hout, hbad, if_true, if_neg hcnt]

/-! ## Invariants of the execution loop -/

lemma startedGe_weaken {k : ℕ} {l : List Event} (h : l.all (startedGe (k + 1)) = true) :
    l.all (startedGe k) = true := by
  rw [List.all_eq_true] at h ⊢
  intro e he
  have hge := h e he
  cases e
  all_goals simp [startedGe] at hge ⊢
  omega

lemma fixEvs_all {k : ℕ} (o : Option String) (tid : String) :
    ((match o with
      | some d => [Event.auto_fix_applied tid d]
      | none => ([] : List Event)).all (startedGe k)) = true := by
  cases o <;> simp [startedGe]

lemma update_task_error_count (db : Db) (i : ℕ) (t : Task) :
    (update_task db i t).job.error_count = db.job.error_count := rfl

lemma process_result_job (s : Settings) (sc : Bool) (uid : String) (t : Task)
    (r : AgentResult) (db : Db) (tot : ℚ) :
    (process_result s sc uid t r db tot).1.job = db.job := by
  simp only [process_result]
  split_ifs <;> rfl

lemma attempt_auto_fix_job (env : Env) (i : ℕ) (db : Db) :
    (attempt_auto_fix env i db).1.job = db.job := by
  simp only [attempt_auto_fix]
  split_ifs <;> rfl

/-- Every task_started event emitted by the loop from index i carries an
index of at least i. -/
lemma execLoop_started_ge (env : Env) (user : UserRec) (snapshot : Job) (jobId : String) :
    ∀ (rem : List Task) (i : ℕ) (db : Db) (tot : ℚ),
      ((execLoop env user snapshot jobId rem i db tot).2.all (startedGe i)) = true := by
  intro rem
  induction rem with
  | nil =>
    intro i db tot
    rw [execLoop_stop]
    simp [startedGe]
  | cons task rem ih =>
    intro i db tot
    by_cases hp : should_charge user = true ∧
      user_balance db.credit user.id < task.estimated_credits
    · rw [execLoop_pause env user snapshot jobId task rem i db tot hp]
      simp [startedGe]
    · cases hout : env.outcomes i with
      | raises msg =>
        rw [execLoop_raises env user snapshot jobId task rem i db tot msg hp hout]
        simp only [List.all_cons, Bool.and_eq_true]
        refine ⟨by simp [startedGe], by simp [startedGe], ?_⟩
        exact startedGe_weaken (ih (i + 1) _ tot)
      | returns r =>
        cases hbad : (!r.success && !r.errors.isEmpty) with
        | false =>
          rw [execLoop_returns_ok env user snapshot jobId task rem i db tot r hp hout hbad]
          simp only [List.all_cons, Bool.and_eq_true]
          refine ⟨by simp [startedGe], by simp [startedGe], ?_⟩
          exact startedGe_weaken (ih (i + 1) _ _)
        | true =>
          by_cases hcnt : snapshot.error_count + 1 < snapshot.max_errors
          · rw [execLoop_fail_fix env user snapshot jobId task rem i db tot r hp hout hbad hcnt]
            simp only [List.all_cons, List.all_append, Bool.and_eq_true]
            refine ⟨by simp [startedGe], by simp [startedGe], fixEvs_all _ _, ?_⟩
            exact startedGe_weaken (ih (i + 1) _ _)
          · rw [execLoop_fail_stop env user snapshot jobId task rem i db tot r hp hout hbad hcnt]
            simp [startedGe]

/-- The loop never writes the error_count field of the persisted job: the
source computes the incremented counter into a local variable only. -/
lemma execLoop_error_count (env : Env) (user : UserRec) (snapshot : Job) (jobId : String) :
    ∀ (rem : List Task) (i : ℕ) (db : Db) (tot : ℚ),
      (execLoop env user snapshot jobId rem i db tot).1.job.error_count =
        db.job.error_count := by
  intro rem
  induction rem with
  | nil =>
    intro i db tot
    rw [execLoop_stop]
  | cons task rem ih =>
    intro i db tot
    by_cases hp : should_charge user = true ∧
      user_balance db.credit user.id < task.estimated_credits
    · rw [execLoop_pause env user snapshot jobId task rem i db tot hp]
    · cases hout : env.outcomes i with
      | raises msg =>
        rw [execLoop_raises env user snapshot jobId task rem i db tot msg hp hout]
        rw [ih (i + 1) _ tot]
        rfl
      | returns r =>
        cases hbad : (!r.success && !r.errors.isEmpty) with
        | false =>
          rw [execLoop_returns_ok env user snapshot jobId task rem i db tot r hp hout hbad]
          simp only []
          rw [ih (i + 1) _ _]
          rw [update_task_error_count]
          rw [process_result_job]
          rfl
        | true =>
          by_cases hcnt : snapshot.error_count + 1 < snapshot.max_errors
          · rw [execLoop_fail_fix env user snapshot jobId task rem i db tot r hp hout hbad hcnt]
            simp only []
            rw [ih (i + 1) _ _]
            have hfix := attempt_auto_fix_job env i
              (update_task (process_result env.settings (should_charge user) user.id
                { task with status := "running" } r
                (update_task db i { task with status := "running" }) tot).1 i
                (process_result env.settings (should_charge user) user.id
                { task with status := "running" } r
                (update_task db i { task with status := "running" }) tot).2.2)
            rw [hfix]
            rw [update_task_error_count]
            rw [process_result_job]
            rfl
          · rw [execLoop_fail_stop env user snapshot jobId task rem i db tot r hp hout hbad hcnt]
            simp only []
            show (update_task _ i _).job.error_count = _
            rw [update_task_error_count]
            rw [process_result_job]
            rfl

/-! ## Claim C1: deduct_credits never drives a balance negative -/

lemma find?_update (uid : String) (b : ℚ) (l : List UserRec) :
    (l.map (fun u => if u.id == uid then { u with credits := b } else u)).find?
        (fun u => u.id == uid) =
      (l.find? (fun u => u.id == uid)).map (fun u => { u with credits := b }) := by
  induction l with
  | nil => rfl
  | cons a t ih =>
    by_cases ha : (a.id == uid) = true
    · simp [List.find?, ha]
    · simp only [List.map_cons, List.find?]
      rw [if_neg (by simpa using ha)]
      simpa [ha] using ih

lemma findUser_updateUserCredits (c : CreditDB) (uid : String) (b : ℚ) :
    findUser (updateUserCredits c uid b) uid =
      (findUser c uid).map (fun u => { u with credits := b }) := by
  simpa [findUser, updateUserCredits] using find?_update uid b c.users

/-- Claim C1 counterexample: the claim demands that any deduction exceeding the
balance fail with an insufficient-credits outcome, for every user record;
but for a user with credits disabled (balance 0, amount 5 > 0) the source
takes the exemption branch and returns success with zero charge and no
state change. -/
theorem c1_deduct_counterexample :
    (0 : ℚ) < 5 ∧
    (deduct_credits c1Db "u" 5 "reason" "job_task" "t1").1 = .exempt 0 ∧
    (deduct_credits c1Db "u" 5 "reason" "job_task" "t1").1.success = true ∧
    (deduct_credits c1Db "u" 5 "reason" "job_task" "t1").2 = c1Db :=
  ⟨by norm_num, by with_unfolding_all rfl, by with_unfolding_all rfl,
   by with_unfolding_all rfl⟩

/-- Claim C1 amended: for users subject to charging (credits enabled, no own
key), deduct_credits rejects with an insufficient outcome and leaves the
state unchanged when the amount exceeds the balance, and otherwise
decrements the balance by exactly the amount, appends one ledger entry with
delta equal to minus the amount and balance_after equal to the new balance,
and the new balance is never negative; exempt users instead receive success
with zero charge and no state change. -/
theorem c1_deduct_amended (c : CreditDB) (uid : String) (amount : ℚ)
    (reason rt rid : String) (u : UserRec)
    (hu : findUser c uid = some u) :
    (u.credits_enabled = true → u.uses_own_key = false →
      (u.credits < amount →
        deduct_credits c uid amount reason rt rid = (.insufficient amount u.credits, c)) ∧
      (amount ≤ u.credits →
        (deduct_credits c uid amount reason rt rid).1 = .charged amount (u.credits - amount) ∧
        findUser (deduct_credits c uid amount reason rt rid).2 uid =
          some { u with credits := u.credits - amount } ∧
        (deduct_credits c uid amount reason rt rid).2.ledger =
          c.ledger ++ [⟨uid, -amount, reason, rt, rid, u.credits - amount⟩] ∧
        0 ≤ u.credits - amount)) ∧
    (u.credits_enabled = false ∨ u.uses_own_key = true →
      deduct_credits c uid amount reason rt rid = (.exempt u.credits, c)) := by
  constructor
  · intro hen hok
    constructor
    · intro hlt
      simp [deduct_credits, hu, hen, hok, hlt]
    · intro hle
      have hnlt : ¬ u.credits < amount := not_lt.mpr hle
      refine ⟨?_, ?_, ?_, by linarith⟩
      · simp [deduct_credits, hu, hen, hok, hnlt]
      · show findUser (deduct_credits c uid amount reason rt rid).2 uid = _
        simp [deduct_credits, hu, hen, hok, hnlt]
        rw [show (findUser { updateUserCredits c uid (u.credits - amount) with
              ledger := (updateUserCredits c uid (u.credits - amount)).ledger ++
                [⟨uid, -amount, reason, rt, rid, u.credits - amount⟩] } uid) =
            findUser (updateUserCredits c uid (u.credits - amount)) uid from rfl]
        rw [findUser_updateUserCredits, hu]
        simp [hen, hok]
      · simp [deduct_credits, hu, hen, hok, hnlt, updateUserCredits]
  · intro hex
    rcases hex with hd | hkey
    · simp [deduct_credits, hu, hd]
    · by_cases henb : u.credits_enabled <;> simp [deduct_credits, hu, hkey, henb]

/-- Claim C1 witness: a charging user with ten credits loses exactly four,
and the exempt zero-balance user of the counterexample store keeps an
unchanged state on a five-credit deduction. -/
theorem c1_deduct_amended_witness :
    ((deduct_credits c1WitDb "u" 4 "reason" "job_task" "t1").1 =
      .charged 4 ((chargedUser 10).credits - 4) ∧
    findUser (deduct_credits c1WitDb "u" 4 "reason" "job_task" "t1").2 "u" =
      some { chargedUser 10 with credits := (chargedUser 10).credits - 4 } ∧
    0 ≤ (chargedUser 10).credits - 4) ∧
    deduct_credits c1Db "u" 5 "reason" "job_task" "t1" = (.exempt freeUser.credits, c1Db) :=
  have h := ((c1_deduct_amended c1WitDb "u" 4 "reason" "job_task" "t1" (chargedUser 10)
    (by with_unfolding_all rfl)).1 rfl rfl).2 (by norm_num [chargedUser])
  ⟨⟨h.1, h.2.1, h.2.2.2⟩,
   (c1_deduct_amended c1Db "u" 5 "reason" "job_task" "t1" freeUser
     (by with_unfolding_all rfl)).2 (Or.inl rfl)⟩

/-! ## Claim C8: approve_job rejections and idempotence -/

/-- Claim C8: approve_job is rejected and leaves the job unchanged whenever the
status is neither awaiting_approval nor needs_more_credits; in particular a
second approval right after a successful one finds status approved and is
rejected without modifying the stored job again. -/
theorem c8_approve_rejects :
    (∀ (s : Settings) (db : Db) (user : UserRec) (mt : Option (List Task)),
      db.job.user_id = user.id →
      db.job.status ≠ "awaiting_approval" →
      db.job.status ≠ "needs_more_credits" →
      approve_job s db user mt = (.badStatus db.job.status, db)) ∧
    (∀ (s : Settings) (db : Db) (user : UserRec) (mt mt2 : Option (List Task)) (t : ℚ),
      (approve_job s db user mt).1 = .approved t →
      approve_job s (approve_job s db user mt).2 user mt2 =
        (.badStatus "approved", (approve_job s db user mt).2)) := by
  constructor
  · intro s db user mt hid h1 h2
    simp [approve_job, hid, h1, h2]
  · intro s db user mt mt2 t happ
    by_cases hid : db.job.user_id ≠ user.id
    · simp [approve_job, hid] at happ
    · push_neg at hid
      by_cases hst : db.job.status ≠ "awaiting_approval" ∧ db.job.status ≠ "needs_more_credits"
      · simp [approve_job, hid, hst] at happ
      · by_cases hins : ¬ (estimate_job_cost s (mt.getD db.job.tasks) user).1.free_usage = true ∧
          ¬ (estimate_job_cost s (mt.getD db.job.tasks) user).1.sufficient_credits = true
        · simp [approve_job, hid, hst, hins] at happ
        · have hres : (approve_job s db user mt).2 =
              { db with job := { db.job with
                  status := "approved",
                  tasks := (estimate_job_cost s (mt.getD db.job.tasks) user).2,
                  total_estimated_credits :=
                    (estimate_job_cost s (mt.getD db.job.tasks) user).1.total_estimated_credits,
                  credits_approved :=
                    (estimate_job_cost s (mt.getD db.job.tasks) user).1.total_estimated_credits,
                  current_task_index := 0 } } := by
            simp [approve_job, hid, hst]
            rw [if_neg (by simpa [Bool.not_eq_true] using hins)]
          rw [hres]
          simp [approve_job, hid]

/-- Claim C8 witness: a completed job is not approvable, and an immediate second
approval after a successful one is rejected with the approved status. -/
theorem c8_approve_rejects_witness :
    approve_job {} c8DbDone freeUser none = (.badStatus "completed", c8DbDone) ∧
    approve_job {} (approve_job {} c8DbAwait ownKeyUser none).2 ownKeyUser none =
      (.badStatus "approved", (approve_job {} c8DbAwait ownKeyUser none).2) :=
  ⟨c8_approve_rejects.1 {} c8DbDone freeUser none rfl (by decide) (by decide),
   c8_approve_rejects.2 {} c8DbAwait ownKeyUser none none 0 (by with_unfolding_all rfl)⟩

/-! ## Claim C2: the pre-task credit check uses the estimate of the single task -/

/-- Claim C2: when charging applies, the loop compares the current balance
against the estimate of the one task at the cursor.  If the balance is
smaller the job is persisted as needs_more_credits with the cursor at that
index of that task, exactly one needs_credits event is emitted and the generator
returns (no task_started for this or any later task); if the balance
covers that single estimate the task proceeds, with no condition on the
total over the remaining tasks. -/
theorem c2_pretask_credit_check (env : Env) (user : UserRec) (snapshot : Job)
    (jobId : String) (task : Task) (rem : List Task) (i : ℕ) (db : Db) (tot : ℚ)
    (u : UserRec)
    (hsc : should_charge user = true)
    (hu : findUser db.credit user.id = some u) :
    (u.credits < task.estimated_credits →
      execLoop env user snapshot jobId (task :: rem) i db tot =
        ({ db with job := { db.job with
              status := "needs_more_credits",
              current_task_index := i,
              credits_needed := estimate_remaining env.settings (task :: rem) } },
         [.needs_credits (estimate_remaining env.settings (task :: rem))
            u.credits i (task :: rem).length])) ∧
    (task.estimated_credits ≤ u.credits →
      ∃ rest, (execLoop env user snapshot jobId (task :: rem) i db tot).2 =
        .task_started i task.id task.title task.agent_type :: rest) := by
  have hb : user_balance db.credit user.id = u.credits := by
    simp [user_balance, hu]
  constructor
  · intro hlt
    rw [execLoop_pause env user snapshot jobId task rem i db tot
      ⟨hsc, by rw [hb]; exact hlt⟩]
    rw [hb]
  · intro hge
    have hp : ¬ (should_charge user = true ∧
        user_balance db.credit user.id < task.estimated_credits) := by
      rw [hb]
      exact fun hc => absurd hc.2 (not_lt.mpr hge)
    cases hout : env.outcomes i with
    | raises msg =>
      rw [execLoop_raises env user snapshot jobId task rem i db tot msg hp hout]
      exact ⟨_, rfl⟩
    | returns r =>
      cases hbad : (!r.success && !r.errors.isEmpty) with
      | false =>
        rw [execLoop_returns_ok env user snapshot jobId task rem i db tot r hp hout hbad]
        exact ⟨_, rfl⟩
      | true =>
        by_cases hcnt : snapshot.error_count + 1 < snapshot.max_errors
        · rw [execLoop_fail_fix env user snapshot jobId task rem i db tot r hp hout hbad hcnt]
          exact ⟨_, rfl⟩
        · rw [execLoop_fail_stop env user snapshot jobId task rem i db tot r hp hout hbad hcnt]
          exact ⟨_, rfl⟩

/-- Claim C2 witness: a quarter-credit balance against a half-credit task
estimate pauses the job at cursor zero. -/
theorem c2_pretask_credit_check_witness :
    execLoop quietEnv c2User c2Db.job "job1" [sampleTask "t1" 500 (1/2)] 0 c2Db 0 =
      ({ c2Db with job := { c2Db.job with
            status := "needs_more_credits",
            current_task_index := 0,
            credits_needed := estimate_remaining quietEnv.settings [sampleTask "t1" 500 (1/2)] } },
       [.needs_credits (estimate_remaining quietEnv.settings [sampleTask "t1" 500 (1/2)])
          c2User.credits 0 1]) :=
  (c2_pretask_credit_check quietEnv c2User c2Db.job "job1" (sampleTask "t1" 500 (1/2))
    [] 0 c2Db 0 c2User rfl (by with_unfolding_all rfl)).1
    (by norm_num [c2User, chargedUser, sampleTask])

/-! ## Claim C3: resuming starts exactly at the persisted cursor -/

/-- Claim C3: continue_job with approval on a job paused in needs_more_credits
sets the status back to approved without touching the cursor, and a
re-invocation of execute_job iterates from that cursor: every task_started
event of the resumed run carries an index at least the persisted cursor,
so no earlier (completed) task is executed again. -/
theorem c3_resume_at_cursor (env : Env) (db : Db) (user : UserRec)
    (hst : db.job.status = "needs_more_credits")
    (hid : db.job.user_id = user.id) :
    (continue_job db user true).1 = .willContinue ∧
    (continue_job db user true).2.job.current_task_index = db.job.current_task_index ∧
    (continue_job db user true).2.job.status = "approved" ∧
    ((execute_job env user (continue_job db user true).2).2.all
      (startedGe db.job.current_task_index)) = true ∧
    (∀ task rem2, db.job.tasks.drop db.job.current_task_index = task :: rem2 →
      ¬ (should_charge user = true ∧
        user_balance db.credit user.id < task.estimated_credits) →
      ∃ rest, (execute_job env user (continue_job db user true).2).2 =
        .job_started db.job.id db.job.tasks.length ::
        .task_started db.job.current_task_index task.id task.title task.agent_type ::
        rest) := by
  have hcj2 : (continue_job db user true).2 =
      { db with job := { db.job with status := "approved" } } := by
    simp [continue_job, hid, hst]
  refine ⟨by simp [continue_job, hid, hst], by rw [hcj2], by rw [hcj2], ?_, ?_⟩
  · rw [hcj2]
    simp only [execute_job, List.all_cons, Bool.and_eq_true]
    exact ⟨by simp [startedGe], execLoop_started_ge env user _ _ _ _ _ _⟩
  · intro task rem2 hdrop hnp
    rw [hcj2]
    simp only [execute_job]
    rw [show ({ db with job := { db.job with status := "approved" } } : Db).job.tasks.drop
        ({ db with job := { db.job with status := "approved" } } : Db).job.current_task_index =
        task :: rem2 from hdrop]
    cases hout : env.outcomes db.job.current_task_index with
    | raises msg =>
      have heq := execLoop_raises env user { db.job with status := "approved" } db.job.id
        task rem2 db.job.current_task_index
        ({ db with job := { db.job with status := "in_progress" } }) db.job.credits_used
        msg hnp hout
      exact ⟨_, by rw [heq]⟩
    | returns r =>
      cases hbad : (!r.success && !r.errors.isEmpty) with
      | false =>
        have heq := execLoop_returns_ok env user { db.job with status := "approved" } db.job.id
          task rem2 db.job.current_task_index
          ({ db with job := { db.job with status := "in_progress" } }) db.job.credits_used
          r hnp hout hbad
        exact ⟨_, by rw [heq]⟩
      | true =>
        by_cases hcnt : ({ db.job with status := "approved" } : Job).error_count + 1 <
            ({ db.job with status := "approved" } : Job).max_errors
        · have heq := execLoop_fail_fix env user { db.job with status := "approved" } db.job.id
            task rem2 db.job.current_task_index
            ({ db with job := { db.job with status := "in_progress" } }) db.job.credits_used
            r hnp hout hbad hcnt
          exact ⟨_, by rw [heq]⟩
        · have heq := execLoop_fail_stop env user { db.job with status := "approved" } db.job.id
            task rem2 db.job.current_task_index
            ({ db with job := { db.job with status := "in_progress" } }) db.job.credits_used
            r hnp hout hbad hcnt
          exact ⟨_, by rw [heq]⟩

/-- Claim C3 witness: a job paused at cursor one resumes with status approved,
cursor one, and no task_started event below index one. -/
theorem c3_resume_at_cursor_witness :
    (continue_job c3Db freeUser true).1 = .willContinue ∧
    (continue_job c3Db freeUser true).2.job.current_task_index =
      c3Db.job.current_task_index ∧
    (continue_job c3Db freeUser true).2.job.status = "approved" ∧
    ((execute_job quietEnv freeUser (continue_job c3Db freeUser true).2).2.all
      (startedGe c3Db.job.current_task_index)) = true ∧
    (∀ task rem2, c3Db.job.tasks.drop c3Db.job.current_task_index = task :: rem2 →
      ¬ (should_charge freeUser = true ∧
        user_balance c3Db.credit freeUser.id < task.estimated_credits) →
      ∃ rest, (execute_job quietEnv freeUser (continue_job c3Db freeUser true).2).2 =
        .job_started c3Db.job.id c3Db.job.tasks.length ::
        .task_started c3Db.job.current_task_index task.id task.title task.agent_type ::
        rest) :=
  c3_resume_at_cursor quietEnv c3Db freeUser rfl rfl

/-! ## Claim C4: the error budget is never accumulated (code bug) -/

/-- Claim C4 evaluation: with error_count 0 and max_errors 5 persisted, six
consecutive failing tasks all execute, the debugger fix is attempted after
every failure including the fifth and sixth, the persisted error_count is
still 0, no job_failed event is emitted and the job finishes completed —
because the source computes error_count from the stale job dictionary
fetched before the loop and never stores the increment. -/
theorem c4_error_budget_run :
    (execute_job c4Env freeUser c4Db).1.job.status = "completed" ∧
    (execute_job c4Env freeUser c4Db).1.job.error_count = 0 ∧
    ((execute_job c4Env freeUser c4Db).2.filter isTaskStarted).length = 6 ∧
    ((execute_job c4Env freeUser c4Db).2.filter isAutoFix).length = 6 ∧
    ((execute_job c4Env freeUser c4Db).2.all (fun e => !isJobFailed e)) = true := by
  refine ⟨?_, ?_, ?_, ?_, ?_⟩ <;> with_unfolding_all rfl

/-! ## Claim C5: exceptions are contained but not counted -/

/-- Claim C5 counterexample: with an error budget of one, a task that raises is
caught and the run continues to the next task and completes; the same
budget with a task that returns a failure result stops the job as failed.
Under the claim (exceptions count toward error_count / max_errors) the
raising run would also have stopped, so the claim is false as stated. -/
theorem c5_exception_counterexample :
    (execute_job c5Env freeUser c5Db).1.job.status = "completed" ∧
    (execute_job c5Env freeUser c5Db).2 =
      [.job_started "job1" 2,
       .task_started 0 "t1" "t1" "developer",
       .task_error 0 "t1" "boom",
       .task_started 1 "t2" "t2" "developer",
       .task_completed 1 "t2" true [] 0,
       .job_completed "job1" 0 0] ∧
    (execute_job c5Env freeUser c5Db).1.job.error_count = 0 ∧
    (execute_job c5EnvContrast freeUser c5Db).1.job.status = "failed" ∧
    (execute_job c5EnvContrast freeUser c5Db).2 =
      [.job_started "job1" 2,
       .task_started 0 "t1" "t1" "developer",
       .task_completed 0 "t1" false [] 0,
       .job_failed "Too many errors"] := by
  refine ⟨?_, ?_, ?_, ?_, ?_⟩ <;> with_unfolding_all rfl

/-- Claim C5 amended: an exception raised during the execution of a task is caught at
the task boundary: the task is persisted as failed with the exception text
as its error, a task_error event follows task_started, the loop continues
with the next task — but the exception is not counted toward the error
budget: the persisted error_count after the whole run equals the value it
had before. -/
theorem c5_exception_amended (env : Env) (user : UserRec) (snapshot : Job)
    (jobId : String) (task : Task) (rem : List Task) (i : ℕ) (db : Db) (tot : ℚ)
    (msg : String)
    (hout : env.outcomes i = .raises msg)
    (hp : ¬ (should_charge user = true ∧
      user_balance db.credit user.id < task.estimated_credits))
    (hlen : i < db.job.tasks.length) :
    (execLoop env user snapshot jobId (task :: rem) i db tot).2 =
      .task_started i task.id task.title task.agent_type ::
      .task_error i task.id msg ::
      (execLoop env user snapshot jobId rem (i + 1)
        (update_task db i { task with status := "failed", error := some msg }) tot).2 ∧
    (execLoop env user snapshot jobId (task :: rem) i db tot).1 =
      (execLoop env user snapshot jobId rem (i + 1)
        (update_task db i { task with status := "failed", error := some msg }) tot).1 ∧
    (update_task db i { task with status := "failed", error := some msg }).job.tasks[i]? =
      some { task with status := "failed", error := some msg } ∧
    (execLoop env user snapshot jobId (task :: rem) i db tot).1.job.error_count =
      db.job.error_count := by
  have hdup : update_task (update_task db i { task with status := "running" }) i
      { task with status := "failed", error := some msg } =
      update_task db i { task with status := "failed", error := some msg } := by
    simp [update_task, List.set_set]
  rw [execLoop_raises env user snapshot jobId task rem i db tot msg hp hout, hdup]
  refine ⟨rfl, rfl, ?_, ?_⟩
  · simp [update_task, List.getElem?_set_self, hlen]
  · rw [execLoop_error_count env user snapshot jobId rem (i + 1) _ tot]
    rfl

/-- Claim C5 witness: the raising first task of the counterexample run leaves the
persisted error budget untouched. -/
theorem c5_exception_amended_witness :
    (execLoop c5Env freeUser c5Db.job "job1"
        (sampleTask "t1" 500 0 :: [sampleTask "t2" 500 0]) 0 c5Db 0).1.job.error_count =
      c5Db.job.error_count :=
  (c5_exception_amended c5Env freeUser c5Db.job "job1" (sampleTask "t1" 500 0)
    [sampleTask "t2" 500 0] 0 c5Db 0 "boom" rfl
    (by intro hcontra; exact absurd hcontra.1 (by decide)) (by decide)).2.2.2

/-! ## Claim C6: the planner fallback and the empty-tasks hole -/

/-- Claim C6 counterexample: a successful generation whose response parses into a
JSON object carrying an empty tasks list yields success with an empty
tasks_generated — the fallback is not substituted, contradicting the claim
that a successful call never returns zero tasks. -/
theorem c6_planner_counterexample :
    (planner_execute c6Fresh "Python" "build an app"
      (.ok { content := "a plan whose tasks list is empty", tokens := 10 })
      c6ParseEmpty).success = true ∧
    (planner_execute c6Fresh "Python" "build an app"
      (.ok { content := "a plan whose tasks list is empty", tokens := 10 })
      c6ParseEmpty).tasks_generated = [] :=
  ⟨rfl, rfl⟩

/-- Claim C6 amended: every planner call whose generation succeeds returns
success; when the response parses into a plan with a tasks key the
normalised tasks mirror that list one for one (and so may be empty); only
when parsing fails or the tasks key is missing is the fixed 5-step
fallback substituted, whose agent sequence is researcher, developer,
developer, test_designer, verifier. -/
theorem c6_planner_amended (fresh : ℕ → String) (language originalTask : String)
    (resp : GenResp) (parse : String → PlanParse) :
    (planner_execute fresh language originalTask (.ok resp) parse).success = true ∧
    (∀ ts, parse resp.content = .withTasks ts →
      (planner_execute fresh language originalTask (.ok resp) parse).tasks_generated.length =
        ts.length) ∧
    (parse resp.content = .failed →
      planner_execute fresh language originalTask (.ok resp) parse =
        create_fallback_plan fresh language originalTask resp.content resp.tokens) ∧
    (parse resp.content = .missingTasks →
      planner_execute fresh language originalTask (.ok resp) parse =
        create_fallback_plan fresh language originalTask resp.content resp.tokens) ∧
    (create_fallback_plan fresh language originalTask resp.content resp.tokens).tasks_generated.map
        Task.agent_type =
      ["researcher", "developer", "developer", "test_designer", "verifier"] ∧
    (create_fallback_plan fresh language originalTask resp.content
      resp.tokens).tasks_generated.length = 5 := by
  refine ⟨?_, ?_, ?_, ?_, rfl, rfl⟩
  · cases hp : parse resp.content <;> simp [planner_execute, hp, create_fallback_plan]
  · intro ts hp
    simp [planner_execute, hp]
  · intro hp
    simp [planner_execute, hp]
  · intro hp
    simp [planner_execute, hp]

/-- Claim C6 witness: the amended theorem applied to the empty-tasks parse. -/
theorem c6_planner_amended_witness :
    (planner_execute c6Fresh "Python" "build an app"
      (.ok { content := "x", tokens := 3 }) c6ParseEmpty).tasks_generated.length = 0 :=
  (c6_planner_amended c6Fresh "Python" "build an app"
    { content := "x", tokens := 3 } c6ParseEmpty).2.1 [] rfl

/-! ## Claim C7: the agent boundary leaks prompt-building exceptions -/

/-- Claim C7 counterexample: with a context whose previous output lacks the agent
key, the prompt building raises before the try block and the exception
propagates out of DeveloperAgent.execute even though the generation oracle
would have succeeded — contradicting the claim that every internal failure
becomes an unsuccessful AgentResult. -/
theorem c7_agent_counterexample :
    developer_execute c7Pc "write code" (some c7BadCtx) c7Gen c7Extract =
      .error "KeyError: agent" :=
  rfl

/-- Claim C7 amended: whenever the prompt builds (in particular for well-formed
contexts), DeveloperAgent.execute never propagates an exception: it always
returns a result, a provider failure is converted into success=false with
the error text recorded, and a provider success into a success result; only
a KeyError raised by _build_prompt, which runs before the try block,
escapes. -/
theorem c7_agent_amended (pc : ProjectCtx) (task : String) (ctx : Option Ctx)
    (gen : String → Except String GenResp) (extract : String → List (String × String))
    (p : String) (hb : build_prompt pc task ctx = .ok p) :
    (∃ res, developer_execute pc task ctx gen extract = .ok res) ∧
    (∀ e, gen (String.append p developerSuffix) = .error e →
      developer_execute pc task ctx gen extract =
        .ok { success := false, content := e, tokens_used := 0, files_created := [],
              tasks_generated := [], errors := [e] }) ∧
    (∀ resp, gen (String.append p developerSuffix) = .ok resp →
      developer_execute pc task ctx gen extract =
        .ok { success := true, content := resp.content, tokens_used := resp.tokens,
              files_created := extract resp.content, tasks_generated := [],
              errors := [] }) := by
  simp only [developer_execute, hb]
  refine ⟨?_, ?_, ?_⟩
  · cases hg : gen (String.append p developerSuffix) <;> exact ⟨_, rfl⟩
  · intro e hg
    rw [hg]
  · intro resp hg
    rw [hg]

/-- Claim C7 witness: a provider timeout with an empty context becomes a failure
result rather than an exception. -/
theorem c7_agent_amended_witness :
    developer_execute c7Pc "write code" none c7GenFail c7Extract =
      .ok { success := false, content := "timeout", tokens_used := 0, files_created := [],
            tasks_generated := [], errors := ["timeout"] } :=
  (c7_agent_amended c7Pc "write code" none c7GenFail c7Extract
    "## Task\nwrite code" rfl).2.1 "timeout" rfl

/-! ## Claim C9: the verdict markers -/

/-- Claim C9 counterexample: the content PASS contains the bare pass marker the
claim describes, yet the source records verification_passed false and
verdict FAIL, because it matches only the starred marker or the
VERDICT: PASS form. -/
theorem c9_verdict_counterexample :
    spec_verifier_passed "PASS" = true ∧
    (verifier_execute (.ok { content := "PASS", tokens := 3 })).2 =
      some { verification_passed := false, verdict := "FAIL" } :=
  ⟨by with_unfolding_all rfl, by with_unfolding_all rfl⟩

/-- Claim C9 amended: for every successful generation the result metadata carries
verification_passed true exactly when the upper-cased content contains
either of the two markers the source tests — asterisk-wrapped PASS or
VERDICT: PASS — and the recorded verdict is PASS in that case and FAIL
otherwise; the result itself reports success. -/
theorem c9_verdict_amended (c : String) (t : ℕ) :
    (verifier_execute (.ok { content := c, tokens := t })).2 =
      some { verification_passed := verifier_passed c,
             verdict := if verifier_passed c then "PASS" else "FAIL" } ∧
    (verifier_passed c = true ↔
      (strContains (pyUpper c) "**PASS**" = true ∨
       strContains (pyUpper c) "VERDICT: PASS" = true)) ∧
    (verifier_execute (.ok { content := c, tokens := t })).1.success = true := by
  refine ⟨rfl, ?_, rfl⟩
  simp [verifier_passed, Bool.or_eq_true]

/-! ## Claim C10: credit deduction ignores the success flag of the agent -/

/-- Claim C10: in the per-task result processing, the credit store after the step
depends only on whether charging applies and on the credits computed from
the tokens consumed — flipping the success flag of the result changes neither
the deduction nor the accumulated total, so a failed task is charged
exactly like a completed one. -/
theorem c10_charge_ignores_success (s : Settings) (shouldCh : Bool) (uid : String)
    (task : Task) (r : AgentResult) (db : Db) (tot : ℚ) (b : Bool) :
    ((process_result s shouldCh uid task { r with success := b } db tot).1.credit =
      (process_result s shouldCh uid task r db tot).1.credit) ∧
    ((process_result s shouldCh uid task r db tot).1.credit =
      (if shouldCh = true ∧ 0 < calculate_credits s r.tokens_used true then
        (deduct_credits db.credit uid (calculate_credits s r.tokens_used true)
          (String.append "Task: " task.title) "job_task" task.id).2
       else db.credit)) ∧
    ((process_result s shouldCh uid task r db tot).2.1 =
      (if shouldCh = true ∧ 0 < calculate_credits s r.tokens_used true then
        tot + calculate_credits s r.tokens_used true
       else tot)) := by
  refine ⟨?_, ?_, ?_⟩ <;>
    simp only [process_result] <;> split_ifs <;> rfl

end KingV3
